import Mathlib

/-
Verification of the mcp-web-scrape example client
(src/examples/python-client.py) against its design specification.

The file shallowly embeds the client's observable behaviour: the JSON-RPC
request envelopes each operation builds, and the processing pipeline each
operation applies to the HTTP response (status check, JSON decoding, and
unwrapping of the result or error field).  Both the synchronous class
`MCPWebScrapeClient` and the asynchronous class `AsyncMCPWebScrapeClient`
are embedded, each from its own source lines, so that their equivalence can
be stated rather than assumed.
-/

namespace MWS

/-- JSON values exchanged between the client and the server.  Numbers are
modelled as integers: every number the client itself ever places in an
envelope, namely the correlation id `1` or `int(time.time())`, is an
integer. -/
inductive Json where
  | null : Json
  | bool (b : Bool) : Json
  | num (n : Int) : Json
  | str (s : String) : Json
  | arr (xs : List Json) : Json
  | obj (fields : List (String × Json)) : Json

mutual

def jsonEqDec : (a b : Json) → Decidable (a = b)
  | .null, .null => isTrue rfl
  | .bool x, .bool y =>
      if h : x = y then isTrue (congrArg Json.bool h)
      else isFalse (fun hc => h (Json.bool.inj hc))
  | .num x, .num y =>
      if h : x = y then isTrue (congrArg Json.num h)
      else isFalse (fun hc => h (Json.num.inj hc))
  | .str x, .str y =>
      if h : x = y then isTrue (congrArg Json.str h)
      else isFalse (fun hc => h (Json.str.inj hc))
  | .arr xs, .arr ys =>
      match jsonListEqDec xs ys with
      | isTrue h => isTrue (congrArg Json.arr h)
      | isFalse h => isFalse (fun hc => h (Json.arr.inj hc))
  | .obj fs, .obj gs =>
      match jsonFieldsEqDec fs gs with
      | isTrue h => isTrue (congrArg Json.obj h)
      | isFalse h => isFalse (fun hc => h (Json.obj.inj hc))
  | .null, .bool _ | .null, .num _ | .null, .str _
  | .null, .arr _ | .null, .obj _
  | .bool _, .null | .bool _, .num _ | .bool _, .str _
  | .bool _, .arr _ | .bool _, .obj _
  | .num _, .null | .num _, .bool _ | .num _, .str _
  | .num _, .arr _ | .num _, .obj _
  | .str _, .null | .str _, .bool _ | .str _, .num _
  | .str _, .arr _ | .str _, .obj _
  | .arr _, .null | .arr _, .bool _ | .arr _, .num _
  | .arr _, .str _ | .arr _, .obj _
  | .obj _, .null | .obj _, .bool _ | .obj _, .num _
  | .obj _, .str _ | .obj _, .arr _ =>
      isFalse (fun hc => nomatch hc)

def jsonListEqDec : (xs ys : List Json) → Decidable (xs = ys)
  | [], [] => isTrue rfl
  | [], _ :: _ => isFalse (fun hc => nomatch hc)
  | _ :: _, [] => isFalse (fun hc => nomatch hc)
  | x :: xs, y :: ys =>
      match jsonEqDec x y, jsonListEqDec xs ys with
      | isTrue hx, isTrue ht => isTrue (hx ▸ ht ▸ rfl)
      | isFalse hx, _ => isFalse (fun hc => hx (List.cons.inj hc).1)
      | _, isFalse ht => isFalse (fun hc => ht (List.cons.inj hc).2)

def jsonFieldsEqDec : (fs gs : List (String × Json)) → Decidable (fs = gs)
  | [], [] => isTrue rfl
  | [], _ :: _ => isFalse (fun hc => nomatch hc)
  | _ :: _, [] => isFalse (fun hc => nomatch hc)
  | (k, v) :: fs, (l, w) :: gs =>
      match decEq k l, jsonEqDec v w, jsonFieldsEqDec fs gs with
      | isTrue hk, isTrue hv, isTrue ht => isTrue (hk ▸ hv ▸ ht ▸ rfl)
      | isFalse hk, _, _ =>
          isFalse (fun hc => hk (congrArg Prod.fst (List.cons.inj hc).1))
      | _, isFalse hv, _ =>
          isFalse (fun hc => hv (congrArg Prod.snd (List.cons.inj hc).1))
      | _, _, isFalse ht => isFalse (fun hc => ht (List.cons.inj hc).2)

end

instance : DecidableEq Json := jsonEqDec

/-- First binding of a key in a field list.  Python dicts have unique keys,
so first match equals only match for dicts built by the client. -/
def fieldGet : List (String × Json) → String → Option Json
  | [], _ => none
  | (k, v) :: rest, key => if k = key then some v else fieldGet rest key

/-- Top-level field lookup on a JSON value; `none` on non-objects. -/
def Json.lookup : Json → String → Option Json
  | .obj fs, k => fieldGet fs k
  | _, _ => none

/-- Insertion of one key/value pair into a field list, replacing in place
when the key is present, as a Python dict assignment does. -/
def dictInsert (fs : List (String × Json)) (kv : String × Json) :
    List (String × Json) :=
  if (fieldGet fs kv.1).isSome then
    fs.map (fun p => if p.1 = kv.1 then kv else p)
  else fs ++ [kv]

/-- Semantics of a Python dict literal that splices keyword arguments after
explicit entries, such as the client's `\x7b'url': url, **kwargs\x7d`: the
keyword pairs are inserted left to right, later bindings replacing earlier
ones in place. -/
def dictUpdate (fs kws : List (String × Json)) : List (String × Json) :=
  kws.foldl dictInsert fs

/-- Removal of one key from a field list. -/
def removeKey (fs : List (String × Json)) (k : String) :
    List (String × Json) :=
  fs.filter (fun p => ¬ p.1 = k)

/-- Exceptions the client can raise.  `httpError` stands for the
`requests.exceptions.HTTPError` that `raise_for_status` raises, carrying the
offending status; `toolCallFailed` stands for the bare `Exception` raised in
`_call_tool`, carrying the server-supplied error payload interpolated into
its message; `typeErrorMultipleValues` stands for the `TypeError` Python
raises when a call supplies a parameter both positionally and by keyword. -/
inductive PyErr where
  | httpError (status : Nat) : PyErr
  | jsonDecodeError : PyErr
  | attributeError : PyErr
  | toolCallFailed (payload : Json) : PyErr
  | typeErrorMultipleValues (param : String) : PyErr
deriving DecidableEq

/-- An HTTP response as the client observes it: the status code and the
body, `none` standing for a body that is not valid JSON (so that
`response.json()` would raise). -/
structure HttpResponse where
  status : Nat
  body : Option Json
deriving DecidableEq

deriving instance DecidableEq for Except


/-- Embedding of `requests.Response.raise_for_status`, used by the
synchronous client: an `HTTPError` carrying the status is raised exactly
for status codes 400 through 599; informational and redirect statuses
pass, and so do statuses of 600 and above.  The asynchronous client's
status check differs and has its own embedding, `asyncRaiseForStatus`. -/
def raiseForStatus (r : HttpResponse) : Except PyErr Unit :=
  if 400 ≤ r.status ∧ r.status ≤ 599 then .error (.httpError r.status)
  else .ok ()

/-- Embedding of `response.json()`: the decoded body, or a decode error. -/
def responseJson (r : HttpResponse) : Except PyErr Json :=
  match r.body with
  | some j => .ok j
  | none => .error .jsonDecodeError

/-- Embedding of Python `d.get(key, default)` as used on decoded response
bodies: on a dict it returns the binding or the default; on any other value
Python raises `AttributeError`, since only dicts carry `.get`. -/
def pyDictGet (j : Json) (k : String) (d : Json) : Except PyErr Json :=
  match j with
  | .obj fs => .ok ((fieldGet fs k).getD d)
  | _ => .error .attributeError

/-- Request payload built by the synchronous `list_tools` (lines 40 to 44):
the id is the literal constant 1. -/
def listToolsPayload : Json :=
  .obj [("jsonrpc", .str "2.0"), ("id", .num 1), ("method", .str "tools/list")]

/-- Request payload built by the synchronous `list_cache` (lines 68 to 72):
the id is again the literal constant 1. -/
def listCachePayload : Json :=
  .obj [("jsonrpc", .str "2.0"), ("id", .num 1),
        ("method", .str "resources/list")]

/-- Request payload built by the synchronous `_call_tool` (lines 87 to 95).
The id is `int(time.time())`, embedded as the parameter `t`: the whole
current epoch second, not a per-request counter. -/
def callToolEnvelope (t : Int) (toolName : String) (arguments : Json) :
    Json :=
  .obj [("jsonrpc", .str "2.0"), ("id", .num t),
        ("method", .str "tools/call"),
        ("params", .obj [("name", .str toolName), ("arguments", arguments)])]

/-- Response unwrapping performed by the synchronous `_call_tool`
(lines 98 to 103): if the decoded body contains an `error` key the call
raises carrying that payload, otherwise it returns the `result` binding or
an empty object.  A non-dict body makes every Python path raise (membership
test, subscript or `.get`), embedded as a single `attributeError`. -/
def callToolUnwrap (body : Json) : Except PyErr Json :=
  match body with
  | .obj fs =>
    match fieldGet fs "error" with
    | some payload => .error (.toolCallFailed payload)
    | none => .ok ((fieldGet fs "result").getD (.obj []))
  | _ => .error .attributeError

/-- Response unwrapping performed by the synchronous `list_tools`
(lines 47 to 48): `result.get('result', \x7b\x7d).get('tools', [])`. -/
def listToolsUnwrap (body : Json) : Except PyErr Json := do
  let r ← pyDictGet body "result" (.obj [])
  pyDictGet r "tools" (.arr [])

/-- Response unwrapping performed by the synchronous `list_cache`
(lines 75 to 76): `result.get('result', \x7b\x7d).get('resources', [])`. -/
def listCacheUnwrap (body : Json) : Except PyErr Json := do
  let r ← pyDictGet body "result" (.obj [])
  pyDictGet r "resources" (.arr [])

/-- End-to-end response processing of the synchronous `_call_tool`:
`raise_for_status`, then `response.json()`, then the unwrap. -/
def callToolProcess (r : HttpResponse) : Except PyErr Json := do
  raiseForStatus r
  let body ← responseJson r
  callToolUnwrap body

/-- End-to-end response processing of the synchronous `list_tools`. -/
def listToolsProcess (r : HttpResponse) : Except PyErr Json := do
  raiseForStatus r
  let body ← responseJson r
  listToolsUnwrap body

/-- End-to-end response processing of the synchronous `list_cache`. -/
def listCacheProcess (r : HttpResponse) : Except PyErr Json := do
  raiseForStatus r
  let body ← responseJson r
  listCacheUnwrap body

/-- End-to-end response processing of the synchronous `health_check`
(lines 34 to 36): `raise_for_status`, then the decoded JSON body. -/
def healthCheckProcess (r : HttpResponse) : Except PyErr Json := do
  raiseForStatus r
  responseJson r

/-- Arguments mapping built by the synchronous `fetch_content` (line 52):
the dict literal `\x7b'url': url, **kwargs\x7d`. -/
def fetchArguments (url : Json) (kwargs : List (String × Json)) : Json :=
  .obj (dictUpdate [("url", url)] kwargs)

/-- Arguments mapping built by the synchronous `extract_content`
(lines 56 to 60). -/
def extractArguments (url format : Json) (kwargs : List (String × Json)) :
    Json :=
  .obj (dictUpdate [("url", url), ("format", format)] kwargs)

/-- Arguments mapping built by the synchronous `summarize_content`
(line 64). -/
def summarizeArguments (url : Json) (kwargs : List (String × Json)) : Json :=
  .obj (dictUpdate [("url", url)] kwargs)

/-- Truthiness of the optional `pattern` in `purge_cache`: Python's
`if pattern:` is false both for `None` and for the empty string. -/
def patternTruthy : Option String → Bool
  | none => false
  | some p => ¬ p = ""

/-- Arguments mapping built by the synchronous `purge_cache`
(lines 80 to 83): start from an empty dict and add the `pattern` key only
when the optional pattern is truthy. -/
def purgeArguments (pattern : Option String) : Json :=
  if patternTruthy pattern then
    .obj [("pattern", .str (pattern.getD ""))]
  else .obj []

/-- Request envelope `purge_cache` hands to `_call_tool`. -/
def purgeEnvelope (t : Int) (pattern : Option String) : Json :=
  callToolEnvelope t "purge" (purgeArguments pattern)

/-- Call semantics of the synchronous `fetch_content(url, **kwargs)` when
the url is supplied positionally: `url` is a declared parameter, so a
keyword of the same name collides with the positional binding and Python
rejects the call with a TypeError before the body runs; otherwise the
envelope built from the merged arguments is posted. -/
def fetchContentInvoke (t : Int) (url : Json)
    (kwargs : List (String × Json)) : Except PyErr Json :=
  if (fieldGet kwargs "url").isSome then
    .error (.typeErrorMultipleValues "url")
  else .ok (callToolEnvelope t "fetch" (fetchArguments url kwargs))

/-- Call semantics of the synchronous
`extract_content(url, format='text', **kwargs)` with the url supplied
positionally and the format optionally supplied positionally: keywords
named `url` or `format` bind to the declared parameters, so a keyword
duplicating a positional binding is a TypeError, a `format` keyword with no
positional format binds the parameter, and the default format is the
string `text`. -/
def extractContentInvoke (t : Int) (url : Json) (format : Option Json)
    (kwargs : List (String × Json)) : Except PyErr Json :=
  if (fieldGet kwargs "url").isSome then
    .error (.typeErrorMultipleValues "url")
  else
    match format, fieldGet kwargs "format" with
    | some _, some _ => .error (.typeErrorMultipleValues "format")
    | some f, none =>
        .ok (callToolEnvelope t "extract" (extractArguments url f kwargs))
    | none, some f =>
        .ok (callToolEnvelope t "extract"
          (extractArguments url f (removeKey kwargs "format")))
    | none, none =>
        .ok (callToolEnvelope t "extract"
          (extractArguments url (.str "text") kwargs))

/-- Call semantics of the synchronous `summarize_content(url, **kwargs)`
with the url supplied positionally. -/
def summarizeContentInvoke (t : Int) (url : Json)
    (kwargs : List (String × Json)) : Except PyErr Json :=
  if (fieldGet kwargs "url").isSome then
    .error (.typeErrorMultipleValues "url")
  else .ok (callToolEnvelope t "summarize" (summarizeArguments url kwargs))

/- Asynchronous client, `AsyncMCPWebScrapeClient` (lines 110 to 201),
embedded from its own method bodies rather than shared with the
synchronous definitions, so that the equivalence of the two classes can be
proved instead of assumed. -/

/-- Embedding of `aiohttp.ClientResponse.raise_for_status`, used by the
asynchronous client: a `ClientResponseError` carrying the status is
raised for every status of at least 400, with no upper bound, since
aiohttp's `ok` test is simply that the status is below 400.  This is
wider than the 400 to 599 range of the requests counterpart the
synchronous client uses. -/
def asyncRaiseForStatus (r : HttpResponse) : Except PyErr Unit :=
  if 400 ≤ r.status then .error (.httpError r.status)
  else .ok ()

/-- Response unwrapping performed by the asynchronous `_call_tool`
(lines 196 to 201). -/
def asyncCallToolUnwrap (body : Json) : Except PyErr Json :=
  match body with
  | .obj fs =>
    match fieldGet fs "error" with
    | some payload => .error (.toolCallFailed payload)
    | none => .ok ((fieldGet fs "result").getD (.obj []))
  | _ => .error .attributeError

/-- End-to-end response processing of the asynchronous `_call_tool`. -/
def asyncCallToolProcess (r : HttpResponse) : Except PyErr Json := do
  asyncRaiseForStatus r
  let body ← responseJson r
  asyncCallToolUnwrap body

/-- Outcome of one `fetch_content(url)` task, as a function of the
response the server gives for that url: the envelope
`callToolEnvelope t "fetch" (.obj [("url", .str url)])` is posted for it,
and the response is processed by the `_call_tool` pipeline. -/
def fetchContentResult (respond : String → HttpResponse) (url : String) :
    Except PyErr Json :=
  asyncCallToolProcess (respond url)

/-- Embedding of lines 269 and 270: one task per url, gathered with
`return_exceptions=True`, so the aggregate keeps each outcome, failure or
success, at the position of its url. -/
def asyncExampleGather (respond : String → HttpResponse)
    (urls : List String) : List (Except PyErr Json) :=
  urls.map (fun u => fetchContentResult respond u)

/-- C1, counterexample: two distinct requests a single client instance
issues, a `tools/list` and a `resources/list`, both carry the id 1, so
request ids are not unique within a session. -/
theorem id_collision_counterexample :
    listToolsPayload ≠ listCachePayload ∧
    listToolsPayload.lookup "id" = some (.num 1) ∧
    listCachePayload.lookup "id" = some (.num 1) := by
  refine ⟨by decide, rfl, rfl⟩

/-- C1, amended: the id of every `tools/list` request is the constant 1,
the id of every `resources/list` request is the constant 1, and the id of
a `tools/call` request is the epoch second at which it is built; ids of
distinct requests within one session may therefore coincide and no
uniqueness invariant holds. -/
theorem request_id_values (t : Int) (toolName : String) (args : Json) :
    listToolsPayload.lookup "id" = some (.num 1) ∧
    listCachePayload.lookup "id" = some (.num 1) ∧
    (callToolEnvelope t toolName args).lookup "id" = some (.num t) :=
  ⟨rfl, rfl, rfl⟩

/-- C2, counterexample: on a 200 response whose JSON body carries an
`error` field, `list_tools` and `list_cache` raise nothing at all; they
never inspect the `error` field and return the empty list. -/
theorem list_ops_ignore_error_counterexample :
    listToolsProcess ⟨200, some (.obj [("error",
        .obj [("code", .num (-1)), ("message", .str "bad url")])])⟩ =
      .ok (.arr []) ∧
    listCacheProcess ⟨200, some (.obj [("error",
        .obj [("code", .num (-1)), ("message", .str "bad url")])])⟩ =
      .ok (.arr []) := by
  refine ⟨by decide, by decide⟩

/-- C2, amended: among the posting operations only `_call_tool` (and with
it the wrappers fetch, extract, summarize and purge, which delegate to it)
raises an invocation error when a 2xx JSON body contains an `error` field,
and that error is of a kind distinct from the transport error kind, so a
caller can branch on the two; `list_tools` and `list_cache` never inspect
the `error` field. -/
theorem call_tool_error_classification (r : HttpResponse)
    (fs : List (String × Json)) (payload : Json)
    (hstatus : 200 ≤ r.status ∧ r.status ≤ 299)
    (hbody : r.body = some (.obj fs))
    (herr : fieldGet fs "error" = some payload) :
    callToolProcess r = .error (.toolCallFailed payload) ∧
    (∀ s : Nat, PyErr.toolCallFailed payload ≠ PyErr.httpError s) := by
  have hs : ¬ (400 ≤ r.status ∧ r.status ≤ 599) := by omega
  refine ⟨?_, fun s h => PyErr.noConfusion h⟩
  simp [callToolProcess, raiseForStatus, hs, responseJson, hbody,
    callToolUnwrap, herr, Bind.bind, Except.bind]

/-- C2, witness at the spec's mocked error response. -/
theorem call_tool_error_classification_witness :
    callToolProcess ⟨200, some (.obj [("error",
        .obj [("code", .num (-1)), ("message", .str "bad url")])])⟩ =
      .error (.toolCallFailed
        (.obj [("code", .num (-1)), ("message", .str "bad url")])) ∧
    (∀ s : Nat, PyErr.toolCallFailed
        (.obj [("code", .num (-1)), ("message", .str "bad url")]) ≠
      PyErr.httpError s) :=
  call_tool_error_classification
    ⟨200, some (.obj [("error",
      .obj [("code", .num (-1)), ("message", .str "bad url")])])⟩
    [("error", .obj [("code", .num (-1)), ("message", .str "bad url")])]
    (.obj [("code", .num (-1)), ("message", .str "bad url")])
    (by decide) rfl rfl

/-- C3, counterexample: for the empty pattern the truthiness test
`if pattern:` is false, so `purge_cache("")` omits the `pattern` key and
posts exactly the same envelope as `purge_cache(None)`; the server cannot
distinguish no filter from an empty filter. -/
theorem purge_empty_pattern_counterexample :
    purgeArguments (some "") = .obj [] ∧
    purgeArguments (some "") ≠ .obj [("pattern", .str "")] ∧
    purgeEnvelope 0 (some "") = purgeEnvelope 0 none := by
  refine ⟨by decide, by decide, by decide⟩

/-- C3, amended: `purge_cache(None)` sends the empty arguments mapping,
and for every non-empty pattern string `purge_cache(pattern)` sends a
mapping binding `pattern` to that string; the empty pattern string is
treated like `None` and its key is omitted. -/
theorem purge_arguments_shape (p : String) (hp : p ≠ "") :
    purgeArguments none = .obj [] ∧
    purgeArguments (some p) = .obj [("pattern", .str p)] ∧
    purgeArguments (some "") = purgeArguments none := by
  refine ⟨rfl, ?_, by decide⟩
  simp [purgeArguments, patternTruthy, hp]

/-- C3, witness at the pattern used by the cache management example. -/
theorem purge_arguments_shape_witness :
    purgeArguments none = .obj [] ∧
    purgeArguments (some "example.com") =
      .obj [("pattern", .str "example.com")] ∧
    purgeArguments (some "") = purgeArguments none :=
  purge_arguments_shape "example.com" (by decide)

/-- C4: on a 2xx response whose JSON body is an object, `_call_tool`
raises an invocation error carrying the server-supplied payload of the
`error` field when one is present; with no `error` field it returns the
value of the `result` field, or the empty object when `result` is
absent. -/
theorem call_tool_unwrap_spec (r : HttpResponse)
    (fs : List (String × Json))
    (hstatus : 200 ≤ r.status ∧ r.status ≤ 299)
    (hbody : r.body = some (.obj fs)) :
    (∀ payload, fieldGet fs "error" = some payload →
      callToolProcess r = .error (.toolCallFailed payload)) ∧
    (∀ v, fieldGet fs "error" = none → fieldGet fs "result" = some v →
      callToolProcess r = .ok v) ∧
    (fieldGet fs "error" = none → fieldGet fs "result" = none →
      callToolProcess r = .ok (.obj [])) := by
  have hs : ¬ (400 ≤ r.status ∧ r.status ≤ 599) := by omega
  refine ⟨fun payload herr => ?_, fun v herr hres => ?_,
    fun herr hres => ?_⟩ <;>
  simp [callToolProcess, raiseForStatus, hs, responseJson, hbody,
    callToolUnwrap, herr, Bind.bind, Except.bind] <;>
  simp [hres]

/-- C4, witness at the spec's mocked error response and at a plain result
response. -/
theorem call_tool_unwrap_spec_witness :
    callToolProcess ⟨200, some (.obj [("error",
        .obj [("code", .num (-1)), ("message", .str "bad url")])])⟩ =
      .error (.toolCallFailed
        (.obj [("code", .num (-1)), ("message", .str "bad url")])) ∧
    callToolProcess ⟨200, some (.obj [("result", .str "ok")])⟩ =
      .ok (.str "ok") ∧
    callToolProcess ⟨200, some (.obj [])⟩ = .ok (.obj []) :=
  ⟨(call_tool_unwrap_spec
      ⟨200, some (.obj [("error",
        .obj [("code", .num (-1)), ("message", .str "bad url")])])⟩
      [("error", .obj [("code", .num (-1)), ("message", .str "bad url")])]
      (by decide) rfl).1
      (.obj [("code", .num (-1)), ("message", .str "bad url")]) rfl,
   (call_tool_unwrap_spec ⟨200, some (.obj [("result", .str "ok")])⟩
      [("result", .str "ok")] (by decide) rfl).2.1
      (.str "ok") rfl rfl,
   (call_tool_unwrap_spec ⟨200, some (.obj [])⟩ [] (by decide) rfl).2.2
      rfl rfl⟩

/-- C5: for every tool name and argument mapping and at every instant, the
envelope `_call_tool` posts has `jsonrpc` equal to the string 2.0,
`method` exactly equal to the string tools/call, `params.name` equal to
the given tool name verbatim and `params.arguments` equal to the given
argument mapping verbatim. -/
theorem call_tool_envelope_verbatim (t : Int) (toolName : String)
    (args : Json) :
    (callToolEnvelope t toolName args).lookup "jsonrpc" =
      some (.str "2.0") ∧
    (callToolEnvelope t toolName args).lookup "method" =
      some (.str "tools/call") ∧
    ((callToolEnvelope t toolName args).lookup "params").bind
      (fun p => p.lookup "name") = some (.str toolName) ∧
    ((callToolEnvelope t toolName args).lookup "params").bind
      (fun p => p.lookup "arguments") = some args :=
  ⟨rfl, rfl, rfl, rfl⟩

/-- C6, counterexample: a 304 status is outside the 2xx range, yet
`raise_for_status` does not raise for it, the body is parsed, and the
operation completes without any transport error. -/
theorem status_304_counterexample :
    callToolProcess ⟨304, some (.obj [("result", .str "cached")])⟩ =
      .ok (.str "cached") ∧
    listToolsProcess ⟨304, some (.obj [])⟩ = .ok (.arr []) ∧
    healthCheckProcess ⟨304, some (.obj [])⟩ = .ok (.obj []) := by
  refine ⟨by decide, by decide, by decide⟩

/-- C6, amended: for every HTTP status in the 4xx or 5xx range, every
operation raises a transport error carrying that status, and the check
strictly precedes any JSON decoding or unwrapping: the outcome is the
same for every body, including one that is not valid JSON.  Statuses
outside 2xx but below 400, such as 304, are not treated as transport
errors. -/
theorem transport_error_precedes_unwrap (r : HttpResponse)
    (h : 400 ≤ r.status ∧ r.status ≤ 599) :
    callToolProcess r = .error (.httpError r.status) ∧
    listToolsProcess r = .error (.httpError r.status) ∧
    listCacheProcess r = .error (.httpError r.status) ∧
    healthCheckProcess r = .error (.httpError r.status) := by
  refine ⟨?_, ?_, ?_, ?_⟩ <;>
  simp [callToolProcess, listToolsProcess, listCacheProcess,
    healthCheckProcess, raiseForStatus, h, Bind.bind, Except.bind]

/-- C6, witness at the spec's HTTP 500 example, with a body that is not
even valid JSON. -/
theorem transport_error_precedes_unwrap_witness :
    callToolProcess ⟨500, none⟩ = .error (.httpError 500) ∧
    listToolsProcess ⟨500, none⟩ = .error (.httpError 500) ∧
    listCacheProcess ⟨500, none⟩ = .error (.httpError 500) ∧
    healthCheckProcess ⟨500, none⟩ = .error (.httpError 500) :=
  transport_error_precedes_unwrap ⟨500, none⟩ (by decide)

/-- C7: on a 2xx response whose body is an object, `list_tools` returns
exactly the `tools` binding found under the `result` field and
`list_cache` returns exactly the `resources` binding; when `result` is
absent, or is an object lacking that binding, the operation returns the
empty list. -/
theorem list_unwrap_spec (r : HttpResponse)
    (fs rfs : List (String × Json))
    (hstatus : 200 ≤ r.status ∧ r.status ≤ 299)
    (hbody : r.body = some (.obj fs)) :
    (∀ ts, fieldGet fs "result" = some (.obj rfs) →
      fieldGet rfs "tools" = some ts → listToolsProcess r = .ok ts) ∧
    (fieldGet fs "result" = none → listToolsProcess r = .ok (.arr [])) ∧
    (fieldGet fs "result" = some (.obj rfs) →
      fieldGet rfs "tools" = none → listToolsProcess r = .ok (.arr [])) ∧
    (∀ rs, fieldGet fs "result" = some (.obj rfs) →
      fieldGet rfs "resources" = some rs → listCacheProcess r = .ok rs) ∧
    (fieldGet fs "result" = none → listCacheProcess r = .ok (.arr [])) ∧
    (fieldGet fs "result" = some (.obj rfs) →
      fieldGet rfs "resources" = none →
      listCacheProcess r = .ok (.arr [])) := by
  have hs : ¬ (400 ≤ r.status ∧ r.status ≤ 599) := by omega
  refine ⟨fun ts hres hts => ?_, fun hres => ?_, fun hres hts => ?_,
    fun rs hres hrs => ?_, fun hres => ?_, fun hres hrs => ?_⟩ <;>
  simp [listToolsProcess, listCacheProcess, raiseForStatus, hs,
    responseJson, hbody, listToolsUnwrap, listCacheUnwrap, pyDictGet,
    hres, Bind.bind, Except.bind] <;>
  simp_all [fieldGet]

/-- C7, witness at the spec's two mocked responses for `list_tools` and
their counterparts for `list_cache`. -/
theorem list_unwrap_spec_witness :
    listToolsProcess ⟨200, some (.obj [("result",
        .obj [("tools", .arr [.obj [("name", .str "fetch")]])])])⟩ =
      .ok (.arr [.obj [("name", .str "fetch")]]) ∧
    listToolsProcess ⟨200, some (.obj [("result", .obj [])])⟩ =
      .ok (.arr []) ∧
    listCacheProcess ⟨200, some (.obj [("result", .obj [])])⟩ =
      .ok (.arr []) :=
  ⟨(list_unwrap_spec
      ⟨200, some (.obj [("result",
        .obj [("tools", .arr [.obj [("name", .str "fetch")]])])])⟩
      [("result", .obj [("tools", .arr [.obj [("name", .str "fetch")]])])]
      [("tools", .arr [.obj [("name", .str "fetch")]])]
      (by decide) rfl).1 (.arr [.obj [("name", .str "fetch")]]) rfl rfl,
   (list_unwrap_spec ⟨200, some (.obj [("result", .obj [])])⟩
      [("result", .obj [])] [] (by decide) rfl).2.2.1 rfl rfl,
   (list_unwrap_spec ⟨200, some (.obj [("result", .obj [])])⟩
      [("result", .obj [])] [] (by decide) rfl).2.2.2.2.2 rfl rfl⟩

/-- C9: gathering the fetch tasks of N urls with exceptions returned in
place yields a list of length exactly N whose i-th entry is the outcome of
the i-th url's request, so each failure is identifiable at its submitted
position and each success is the value the lone request would have
produced, unaffected by failures elsewhere in the batch. -/
theorem gather_positionwise (respond : String → HttpResponse)
    (urls : List String) :
    (asyncExampleGather respond urls).length = urls.length ∧
    (∀ i : Nat, (asyncExampleGather respond urls)[i]? =
      (urls[i]?).map (fun u => fetchContentResult respond u)) ∧
    (∀ (i : Nat) (u : String), urls[i]? = some u →
      (asyncExampleGather respond urls)[i]? =
        some (fetchContentResult respond u)) := by
  refine ⟨List.length_map _ _,
    fun i => by simp [asyncExampleGather, List.getElem?_map], ?_⟩
  intro i u h
  simp [asyncExampleGather, List.getElem?_map, h]

/-- Concrete server behaviour for the C9 witness: the first example url
succeeds, every other url fails with an HTTP 500. -/
def exampleRespond : String → HttpResponse := fun u =>
  if u = "https://example.com" then
    ⟨200, some (.obj [("result",
      .obj [("content", .arr [.str "Example Domain"])])])⟩
  else ⟨500, some (.obj [])⟩

/-- Urls of the C9 witness: two submitted tasks, one of which fails. -/
def exampleUrls : List String :=
  ["https://example.com", "https://httpbin.org/html"]

/-- C9, witness: with one failure among two gathered tasks the aggregate
has length two, the success sits at position zero with its value intact,
and the failure is identifiable at position one. -/
theorem gather_positionwise_witness :
    (asyncExampleGather exampleRespond exampleUrls).length = 2 ∧
    (asyncExampleGather exampleRespond exampleUrls)[0]? =
      some (.ok (.obj [("content", .arr [.str "Example Domain"])])) ∧
    (asyncExampleGather exampleRespond exampleUrls)[1]? =
      some (.error (.httpError 500)) := by
  have h := gather_positionwise exampleRespond exampleUrls
  refine ⟨h.1.trans (by decide), ?_, ?_⟩
  · have h0 := h.2.2 0 "https://example.com" (by decide)
    rw [h0]; decide
  · have h1 := h.2.2 1 "https://httpbin.org/html" (by decide)
    rw [h1]; decide

/-- C10, counterexample: invoking `fetch_content` with a positional url
and an extra `url` keyword is rejected by Python with a TypeError before
any request is built; the keyword does not silently override the
positional value. -/
theorem url_kwarg_counterexample :
    fetchContentInvoke 0 (.str "https://example.com")
        [("url", .str "https://other.example")] =
      .error (.typeErrorMultipleValues "url") ∧
    fetchContentInvoke 0 (.str "https://example.com")
        [("url", .str "https://other.example")] ≠
      .ok (callToolEnvelope 0 "fetch"
        (.obj [("url", .str "https://other.example")])) := by
  refine ⟨by decide, by decide⟩

/-- C10, amended: the extra keyword arguments of `fetch_content`,
`extract_content` and `summarize_content` can never carry the key `url`,
nor `format` for `extract_content`: those names bind to the declared
parameters, and a call that supplies a parameter positionally and again by
keyword is rejected with a TypeError before the request body is built, so
no overriding envelope is ever sent. -/
theorem duplicate_kwarg_rejected (t : Int) (url f : Json)
    (kwargs : List (String × Json)) :
    ((fieldGet kwargs "url").isSome →
      fetchContentInvoke t url kwargs =
        .error (.typeErrorMultipleValues "url") ∧
      summarizeContentInvoke t url kwargs =
        .error (.typeErrorMultipleValues "url") ∧
      extractContentInvoke t url (some f) kwargs =
        .error (.typeErrorMultipleValues "url")) ∧
    (fieldGet kwargs "url" = none → (fieldGet kwargs "format").isSome →
      extractContentInvoke t url (some f) kwargs =
        .error (.typeErrorMultipleValues "format")) := by
  constructor
  · intro hurl
    refine ⟨?_, ?_, ?_⟩ <;>
    simp [fetchContentInvoke, summarizeContentInvoke,
      extractContentInvoke, hurl]
  · intro hurl hfmt
    obtain ⟨fv, hfv⟩ := Option.isSome_iff_exists.mp hfmt
    simp [extractContentInvoke, hurl, hfv]

/-- C10, witness: a duplicated `url` keyword and a duplicated `format`
keyword are each rejected at a concrete call. -/
theorem duplicate_kwarg_rejected_witness :
    fetchContentInvoke 0 (.str "https://example.com")
        [("url", .str "https://other.example")] =
      .error (.typeErrorMultipleValues "url") ∧
    extractContentInvoke 0 (.str "https://example.com")
        (some (.str "markdown")) [("format", .str "text")] =
      .error (.typeErrorMultipleValues "format") :=
  ⟨((duplicate_kwarg_rejected 0 (.str "https://example.com")
      (.str "markdown")
      [("url", .str "https://other.example")]).1 (by decide)).1,
   (duplicate_kwarg_rejected 0 (.str "https://example.com")
      (.str "markdown")
      [("format", .str "text")]).2 (by decide) (by decide)⟩

end MWS
